import Mathlib

set_option maxHeartbeats 1000000

/- Verification development for the MomsFriendlyDevCo/dotenv core:
   a shallow embedding of the ConfigDestruct cell (src/lib/configDestruct.js)
   and of the Schema engine (Schema.getFieldSchema type inheritance,
   Schema.applyField, Schema.apply and its config Proxy get handler).

   Modelling conventions:
   - JavaScript values are the inductive `JSVal`; `JSVal.undefined` is
     `undefined`, `JSVal.vnull` is `null`, `JSVal.vfun r` is a zero-argument
     function whose call returns / throws `r`, `JSVal.vobj kvs` is a plain
     object, `JSVal.vcell c` is a ConfigDestruct instance.
   - Thrown JavaScript values are `JsErr`: `JsErr.error msg cause` is
     `new Error(msg, {cause})`, `JsErr.typeError` a TypeError and
     `JsErr.raw s` a thrown bare string (validators in the registry throw
     plain strings); `JsErr.toString` mirrors JS `e.toString()`.
   - Dates are integer millisecond timestamps; the current time is passed
     explicitly as `now`.
   - Fallible methods return `Except JsErr _`; a `.error` result is a thrown
     exception (none of the embedded methods mutate state before throwing).
-/

inductive JsErr where
  | error (msg : String) (cause : Option JsErr)
  | typeError (msg : String)
  | raw (s : String)

/-- JS `e.toString()`: `Error: msg` for Error objects, `TypeError: msg` for
TypeErrors, the string itself for thrown bare strings. -/
def JsErr.toString : JsErr → String
  | .error m _ => "Error: " ++ m
  | .typeError m => "TypeError: " ++ m
  | .raw s => s

/-- JS `str.replace(/^Error: /, '')`: drop one leading `Error: ` (7
characters) if present; phrased over the character list so that it
evaluates by kernel reduction. -/
def stripErrorHead (s : String) : String :=
  if s.data.take 7 = "Error: ".data then String.mk (s.data.drop 7) else s

/-- The mutable state of a ConfigDestruct cell (src/lib/configDestruct.js):
private fields `#value`, `#destructed`, `#destructDate`, `#destructValue`,
`#tickInterval`, `#tickHandle`, together with the cell's view of the JS
timer queue.  Timers are modelled by ids: `pending` is the set of timers
scheduled by `setTimeout` that have neither fired nor been cancelled,
`nextId` is the fresh-id source, and `tickHandle` is the content of the
`#tickHandle` variable — the id stored by `timerRestart`.  The variable is
never cleared or reassigned elsewhere, so after that timer fires (or is
cancelled) the stored handle is stale: `clearTimeout(#tickHandle)` removes
only the timer with that id from `pending` and cannot reach a timer whose
handle was never stored. -/
structure CellG (α : Type) where
  value : α
  destructed : Bool := false
  destructDate : Int := 0
  destructValue : α
  tickInterval : Nat := 500
  tickHandle : Option Nat := none
  pending : List Nat := []
  nextId : Nat := 0

inductive JSVal where
  | undefined
  | vnull
  | vstr (s : String)
  | vnum (n : Int)
  | vbool (b : Bool)
  | vobj (fields : List (String × JSVal))
  | vfun (r : Except JsErr JSVal)
  | vcell (c : CellG JSVal)

abbrev ConfigDestruct := CellG JSVal

/-- `typeof v == 'string'` -/
def JSVal.isStr : JSVal → Bool
  | .vstr _ => true
  | _ => false

/-- `v === undefined` -/
def JSVal.isUndefined : JSVal → Bool
  | .undefined => true
  | _ => false

/-- `val === undefined || val === ''` -/
def JSVal.isEmptyish : JSVal → Bool
  | .undefined => true
  | .vstr s => s == ""
  | _ => false

/-- `typeof v == 'object'` — true for plain objects, class instances and
`null`. -/
def JSVal.typeofObject : JSVal → Bool
  | .vnull => true
  | .vobj _ => true
  | .vcell _ => true
  | _ => false

/-- JS truthiness of a value. -/
def JSVal.truthy : JSVal → Bool
  | .undefined => false
  | .vnull => false
  | .vstr s => !(s == "")
  | .vnum n => !(n == 0)
  | .vbool b => b
  | .vobj _ => true
  | .vfun _ => true
  | .vcell _ => true

/-- `typeof v == 'function' ? v() : v` — resolve a stored value, calling it
if it is a function (used by `ConfigDestruct.toConfig`). -/
def resolveVal : JSVal → Except JsErr JSVal
  | .vfun r => r
  | v => .ok v

namespace ConfigDestruct

/-- `if (this.#tickHandle) clearTimeout(this.#tickHandle)` — cancel the
timer whose id is stored in the `#tickHandle` variable, if any.  Only that
timer is removed from `pending`; a timer whose handle was never stored is
untouched, and the variable itself keeps its (possibly stale) content, as
in the source, which never nulls it. -/
def clearTick (c : ConfigDestruct) : ConfigDestruct :=
  match c.tickHandle with
  | some h => { c with pending := c.pending.filter (fun j => !(j == h)) }
  | none => c

/-- `destruct()` (configDestruct.js lines 97-104): `clearTimeout` the timer
stored in `#tickHandle`, replace the stored value with the destruct value,
mark destructed. -/
def destruct (c : ConfigDestruct) : ConfigDestruct :=
  let c1 := clearTick c
  { c1 with value := c1.destructValue, destructed := true }

/-- `toConfig()` (configDestruct.js lines 17-23): if not yet destructed and
`now >= #destructDate`, destruct first; then resolve and return the current
value.  Returns the updated cell state alongside the read result. -/
def toConfig (c : ConfigDestruct) (now : Int) : ConfigDestruct × Except JsErr JSVal :=
  let c2 := if c.destructed = false ∧ c.destructDate ≤ now then c.destruct else c
  (c2, resolveVal c2.value)

/-- `setValue(value)` (configDestruct.js lines 54-58). -/
def setValue (c : ConfigDestruct) (v : JSVal) : Except JsErr ConfigDestruct :=
  if c.destructed then
    .error (.error "Cannot use setValue() after value has been destructed" none)
  else
    .ok { c with value := v }

/-- The argument of `setDestruct`: a timestring duration (already converted
to milliseconds), a Date instance (millisecond timestamp), or any other
value (rejected). -/
inductive DestructTime where
  | dur (ms : Nat)
  | date (t : Int)
  | invalid

/-- `setDestruct(time)` (configDestruct.js lines 66-78). -/
def setDestruct (c : ConfigDestruct) (now : Int) (t : DestructTime) : Except JsErr ConfigDestruct :=
  if c.destructed then
    .error (.error "Config set destruction date after value has already been destructed" none)
  else
    match t with
    | .dur ms => .ok { c with destructDate := now + ms }
    | .date d => .ok { c with destructDate := d }
    | .invalid => .error (.error "Unsupported setDestruct() type. Must be a timestring() duration or Date() instance" none)

/-- `setDestructValue(value)` (configDestruct.js lines 86-89): no destructed
check in the source. -/
def setDestructValue (c : ConfigDestruct) (v : JSVal) : ConfigDestruct :=
  { c with destructValue := v }

/-- `timerTick()` (configDestruct.js lines 129-134): `clearTimeout` the
timer stored in `#tickHandle`, destruct if past the destruction date, and
reschedule only if not destructed.  The reschedule at line 132 runs
`setTimeout(this.timerTick.bind(this), this.#tickInterval)` and discards
the result — unlike `timerRestart` (line 153) it does not assign
`this.#tickHandle` — so the new timer is scheduled (added to `pending`)
without updating `tickHandle` and can never be cancelled through the
stored handle. -/
def timerTick (c : ConfigDestruct) (now : Int) : ConfigDestruct :=
  let c1 := clearTick c
  let c2 := if c1.destructDate ≤ now then c1.destruct else c1
  if c2.destructed = false then
    { c2 with pending := c2.nextId :: c2.pending, nextId := c2.nextId + 1 }
  else c2

/-- `timerRestart(duration)` (configDestruct.js lines 142-155).  `duration`
is `none` for `undefined`; `some 0` is falsy in JS so the interval is left
unchanged. -/
def timerRestart (c : ConfigDestruct) (d : Option Nat) : Except JsErr ConfigDestruct :=
  if c.destructed then
    .error (.error "Cannot start timer - Config value has already been destructed" none)
  else
    let c1 := match d with
      | some n => if n ≠ 0 then { c with tickInterval := n } else c
      | none => c
    if c1.tickInterval > 0 then
      let c2 := clearTick c1
      .ok { c2 with tickHandle := some c2.nextId, pending := c2.nextId :: c2.pending, nextId := c2.nextId + 1 }
    else .ok c1

/-- The default `destructValue` from the constructor: a function that throws
`Error('Config value not available after application boot')`. -/
def defaultDestructValue : JSVal :=
  .vfun (.error (.error "Config value not available after application boot" none))

/-- The `config` argument of the constructor when it is an object:
optional `value`, `at`, `destructValue` and `tick` keys. -/
structure DestructObj where
  value : Option JSVal := none
  at' : Option DestructTime := none
  destructValue : Option JSVal := none
  tick : Option Nat := none

/-- The `config` argument of the constructor: a timestring duration / Date
(used as the `at` key), or a config object. -/
inductive DestructCfg where
  | time (t : DestructTime)
  | obj (o : DestructObj)

/-- `new ConfigDestruct(value, config)` (configDestruct.js lines 168-185):
merge settings (config keys override, `at` defaults to `'1m'` = 60000 ms,
`tick` defaults to 500, `destructValue` defaults to a throwing function),
then chain `setValue`, `setDestruct`, `setDestructValue`, `timerRestart`. -/
def create (now : Int) (value : JSVal) (cfg : DestructCfg) : Except JsErr ConfigDestruct := do
  let s : DestructObj := match cfg with
    | .time t => { at' := some t }
    | .obj o => o
  let c0 : ConfigDestruct := { value := JSVal.undefined, destructValue := JSVal.undefined }
  let c1 ← c0.setValue (s.value.getD value)
  let c2 ← c1.setDestruct now (s.at'.getD (.dur 60000))
  let c3 := c2.setDestructValue (s.destructValue.getD defaultDestructValue)
  c3.timerRestart (some (s.tick.getD 500))

/-- A scheduled timer firing: only a still-pending timer can fire; firing
removes it from the pending set and runs the cell's `timerTick` callback
at the firing time. -/
def tickFire (c : ConfigDestruct) (id : Nat) (now : Int) : ConfigDestruct :=
  if id ∈ c.pending then
    timerTick { c with pending := c.pending.filter (fun j => !(j == id)) } now
  else c

end ConfigDestruct

/- ## Schema engine (src Schema class) -/

/-- The data-only option bag of a type entry / field schema (`min`, `max`,
`split`, `unit`, ... plus `type` and `required` when viewed by a cast or
validate function).  Lookup takes the first matching key, so prepending
entries models JS object spread with the prepended side winning. -/
abbrev TypeProps := List (String × JSVal)

/-- A `cast`/`validate` entry: either an inline function (called with
`(value, effectiveFieldSchema)`, here the data view `TypeProps`), or a
string pointer to the same-named function of a registry type. -/
inductive FnRef where
  | fn (f : JSVal → TypeProps → Except JsErr JSVal)
  | ptr (name : String)

/-- JS truthiness of an optional `cast`/`validate` entry: absent and the
empty-string pointer are falsy. -/
def FnRef.truthy : Option FnRef → Bool
  | none => false
  | some (.fn _) => true
  | some (.ptr s) => !(s == "")

/-- A field's `default`: absent (`undefined`), a plain value, or a function
called with the (merged) field schema. -/
inductive DefaultSpec where
  | undefined
  | val (v : JSVal)
  | fn (f : TypeProps → JSVal)

/-- `fieldSchema.default !== undefined` is false: absent, or an explicitly
stored `undefined` (indistinguishable in JS). -/
def DefaultSpec.isUndefined : DefaultSpec → Bool
  | .undefined => true
  | .val .undefined => true
  | _ => false

/-- A normalized field schema, as produced by the shape-resolution part of
`Schema.getFieldSchema` (part_011 lines 500-530) and consumed by the
type-inheritance merge and `applyField`.  `defaultRaw = JSVal.undefined` means
the key is absent (JS `undefined`). -/
structure FieldSchema where
  type : String := "any"
  required : Bool := true
  defaultRaw : JSVal := .undefined
  default : DefaultSpec := .undefined
  cast : Option FnRef := none
  validate : Option FnRef := none
  destruct : Option ConfigDestruct.DestructCfg := none
  props : TypeProps := []

/-- A registry type entry (`Schema.types[...]`): optional cast/validate
functions plus data defaults. -/
structure TypeEntry where
  cast : Option FnRef := none
  validate : Option FnRef := none
  props : TypeProps := []

/-- The type registry `this.types`, as an association list. -/
abbrev TypesMap := List (String × TypeEntry)

/-- `this.types[name]` — `none` when absent. -/
def lookupType (S : TypesMap) (name : String) : Option TypeEntry :=
  (S.find? (fun p => p.1 == name)).map (fun p => p.2)

namespace Schema

/-- The data view of a field schema passed to cast/validate/default
functions: its `type` and `required` keys plus its option bag. -/
def schemaProps (fs : FieldSchema) : TypeProps :=
  ("type", .vstr fs.type) :: ("required", .vbool fs.required) :: fs.props

/-- The tail of `Schema.getFieldSchema` (part_011 lines 532-538):
`{...this.types[fieldSchema.type], ...fieldSchema}` — inherit the registry
entry's cast/validate and data defaults underneath the field's own keys;
unknown types are a hard error. -/
def mergeTE (te : TypeEntry) (fs : FieldSchema) : FieldSchema :=
  { fs with
      cast := fs.cast <|> te.cast,
      validate := fs.validate <|> te.validate,
      props := fs.props ++ te.props }

/-- `Schema.getFieldSchema` type inheritance with the `Invalid schema type`
check (part_011 lines 532-538). -/
def inheritType (S : TypesMap) (fs : FieldSchema) : Except JsErr FieldSchema :=
  match lookupType S fs.type with
  | none => .error (.error ("Invalid schema type \"" ++ fs.type ++ "\"") none)
  | some te => .ok (mergeTE te fs)

/-- The effective field schema passed to a cast/validate function:
`{...this.types[fieldSchema.cast], ...fieldSchema}` — when the entry is a
string pointer the pointed-to registry entry's data is spread underneath,
otherwise `this.types[function]` is `undefined` and the spread is empty. -/
def effProps (S : TypesMap) (r : Option FnRef) (fs : FieldSchema) : TypeProps :=
  match r with
  | some (.ptr name) =>
    schemaProps fs ++ (match lookupType S name with
      | some te => te.props
      | none => [])
  | _ => schemaProps fs

/-- Evaluate a field's `default`: call it with the (merged) field schema if
it is a function (part_011 lines 559-561). -/
def evalDefault (fs : FieldSchema) : JSVal :=
  match fs.default with
  | .fn f => f (schemaProps fs)
  | .val v => v
  | .undefined => .undefined

/-- The `.default` step of `applyField` (part_011 lines 555-568): when a
default is present and the value is unset or blank, evaluate it; a string
result re-enters the pipeline (`Sum.inr`), any other result is returned
immediately (`Sum.inl`). -/
def defaultStep (fs : FieldSchema) (val : JSVal) : Sum JSVal JSVal :=
  if fs.default.isUndefined = false ∧ val.isEmptyish = true then
    match evalDefault fs with
    | .vstr s => .inr (.vstr s)
    | dv => .inl dv
  else .inr val

/-- Run a resolved cast function inside the `try` of part_011 lines 589-596:
a thrown error is wrapped as `Failed to cast: ...` with the original as
cause. -/
def runCast (g : JSVal → TypeProps → Except JsErr JSVal) (val : JSVal) (props : TypeProps) : Except JsErr JSVal :=
  match g val props with
  | .ok v => .ok v
  | .error e => .error (.error ("Failed to cast: " ++ e.toString) (some e))

/-- The TypeError raised when a pointer resolves to a registry entry that
has no function of that name (`castFunc.call` on `undefined`). -/
def undefinedCallErr : JsErr :=
  .typeError "Cannot read properties of undefined (reading \x27call\x27)"

/-- The `.cast` step of `applyField` (part_011 lines 579-597): runs only
when `cast` is truthy and the value is a string; a string-valued `cast` is
a one-hop pointer into the registry. -/
def castStep (S : TypesMap) (fs : FieldSchema) (val : JSVal) : Except JsErr JSVal :=
  if FnRef.truthy fs.cast ∧ val.isStr = true then
    match fs.cast with
    | some (.ptr name) =>
      match lookupType S name with
      | none => .error (.error ("Cast pointer to \"" ++ name ++ "\" does not exist") none)
      | some te =>
        match te.cast with
        | some (.ptr _) => .error (.error ("Cast pointer to \"" ++ name ++ "\" is itself a string pointer - point to the original instead!") none)
        | some (.fn g) => runCast g val (effProps S fs.cast fs)
        | none => .error (.error ("Failed to cast: " ++ undefinedCallErr.toString) (some undefinedCallErr))
    | some (.fn g) => runCast g val (effProps S fs.cast fs)
    | none => .ok val
  else .ok val

/-- The post-cast `.required` check of `applyField` (part_011 line 600). -/
def requiredStep (fs : FieldSchema) (val : JSVal) : Except JsErr JSVal :=
  if fs.required = true ∧ val.isUndefined = true then
    .error (.error "Value required" none)
  else .ok val

/-- The message thrown when a validator returns a defined-but-falsy value
(part_011 line 620). -/
def uncategorisedMsg : String :=
  "Uncategorised validation failure (validator returned falsy but not undefined)"

/-- Run a resolved validate function inside the `try` of part_011 lines
613-623: a thrown error, or a defined-and-falsy return value, is wrapped as
`Failed validation: ...` with the original error as cause. -/
def runValidate (g : JSVal → TypeProps → Except JsErr JSVal) (val : JSVal) (props : TypeProps) : Except JsErr JSVal :=
  match g val props with
  | .error e => .error (.error ("Failed validation: " ++ e.toString) (some e))
  | .ok r =>
    if r.isUndefined = false ∧ r.truthy = false then
      .error (.error ("Failed validation: " ++ JsErr.toString (.error uncategorisedMsg none))
        (some (.error uncategorisedMsg none)))
    else .ok val

/-- The `.validate` step of `applyField` (part_011 lines 602-624): a
string-valued `validate` is a one-hop pointer into the registry (note the
source reuses the `Cast pointer` wording in the ptr-to-ptr error at line
608). -/
def validateStep (S : TypesMap) (fs : FieldSchema) (val : JSVal) : Except JsErr JSVal :=
  if FnRef.truthy fs.validate then
    match fs.validate with
    | some (.ptr name) =>
      match lookupType S name with
      | none => .error (.error ("Validate pointer to \"" ++ name ++ "\" does not exist") none)
      | some te =>
        match te.validate with
        | some (.ptr _) => .error (.error ("Cast pointer to \"" ++ name ++ "\" is itself a string pointer - point to the original instead!") none)
        | some (.fn g) => runValidate g val (effProps S fs.validate fs)
        | none => .error (.error ("Failed validation: " ++ undefinedCallErr.toString) (some undefinedCallErr))
    | some (.fn g) => runValidate g val (effProps S fs.validate fs)
    | none => .ok val
  else .ok val

/-- The `.destruct` step of `applyField` (part_011 lines 627-628): wrap the
value in a new ConfigDestruct cell. -/
def destructStep (now : Int) (fs : FieldSchema) (val : JSVal) : Except JsErr JSVal :=
  match fs.destruct with
  | some cfg => (ConfigDestruct.create now val cfg).map JSVal.vcell
  | none => .ok val

/-- The body of `Schema.applyField` after normalization (part_011 lines
552-630): defaultRaw short-circuit, default step, not-required early
return, then cast, post-cast required check, validate and destruct in
order. -/
def applyFieldBody (S : TypesMap) (now : Int) (fs : FieldSchema) (val0 : JSVal) : Except JsErr JSVal :=
  if fs.defaultRaw.isUndefined = false then .ok fs.defaultRaw
  else
    match defaultStep fs val0 with
    | .inl ret => .ok ret
    | .inr val1 =>
      if fs.required = false ∧ val1.isEmptyish = true then .ok .undefined
      else
        match castStep S fs val1 with
        | .error e => .error e
        | .ok val2 =>
          match requiredStep fs val2 with
          | .error e => .error e
          | .ok val3 =>
            match validateStep S fs val3 with
            | .error e => .error e
            | .ok val4 => destructStep now fs val4

/-- `Schema.applyField(val, rawFieldSchema)` (part_011 lines 549-631):
normalize (type inheritance) then run the pipeline. -/
def applyField (S : TypesMap) (now : Int) (val : JSVal) (raw : FieldSchema) : Except JsErr JSVal :=
  match inheritType S raw with
  | .error e => .error e
  | .ok fs => applyFieldBody S now fs val

/-- A JS object as an association list; lookup takes the first matching
key. -/
abbrev ObjMap := List (String × JSVal)

/-- `obj[key]` — `undefined` when absent. -/
def lookupObj (o : ObjMap) (k : String) : JSVal :=
  match o.find? (fun p => p.1 == k) with
  | some p => p.2
  | none => .undefined

/-- The per-field loop of `Schema.apply` (part_011 lines 641-653):
sequential; the first field whose `applyField` throws aborts the whole map
with the error re-wrapped as `Env '<name>': <message>` carrying the
original as cause. -/
def applyFields (S : TypesMap) (now : Int) (config : ObjMap) : List (String × FieldSchema) → Except JsErr ObjMap
  | [] => .ok []
  | (path, raw) :: rest =>
    match applyField S now (lookupObj config path) raw with
    | .error e =>
      .error (.error ("Env \x27" ++ path ++ "\x27: " ++ stripErrorHead e.toString) (some e))
    | .ok v =>
      match applyFields S now config rest with
      | .error e2 => .error e2
      | .ok tl => .ok ((path, v) :: tl)

/-- `Schema.apply(config)` (part_011 lines 639-679) up to the Proxy: the
backing object `{...(reject ? {} : config), ...schemaFields}` where the
schema'd fields shadow the originals. -/
def apply (S : TypesMap) (now : Int) (fields : List (String × FieldSchema)) (reject : Bool) (config : ObjMap) : Except JsErr ObjMap :=
  match applyFields S now config fields with
  | .error e => .error e
  | .ok sf => .ok (sf ++ (if reject then [] else config))

/-- `obj.map` with one key's value replaced (the in-place mutation a
`toConfig()` read performs on a stored cell). -/
def updateObj (o : ObjMap) (k : String) (v : JSVal) : ObjMap :=
  o.map (fun p => if p.1 == k then (p.1, v) else p)

/-- The Proxy `get` handler of `Schema.apply` (part_011 lines 664-671):
`let target = obj[prop]; if (typeof target == 'object' && 'toConfig' in
target) return target.toConfig(); else return obj[prop];`.  On `null` the
`in` test throws a TypeError; on a ConfigDestruct cell it performs the
destruction-checking read.  Returns the updated backing object alongside
the read result. -/
def proxyGet (now : Int) (obj : ObjMap) (prop : String) : ObjMap × Except JsErr JSVal :=
  let target := lookupObj obj prop
  if target.typeofObject = true then
    match target with
    | .vnull =>
      (obj, .error (.typeError "Cannot use \x27in\x27 operator to search for \x27toConfig\x27 in null"))
    | .vcell c =>
      let r := ConfigDestruct.toConfig c now
      (updateObj obj prop (.vcell r.1), r.2)
    | .vobj kvs =>
      if kvs.any (fun p => p.1 == "toConfig") then
        match lookupObj kvs "toConfig" with
        | .vfun r => (obj, r)
        | _ => (obj, .error (.typeError "obj[prop].toConfig is not a function"))
      else (obj, .ok target)
    | _ => (obj, .ok target)
  else (obj, .ok target)

end Schema

/- ## Theorems: ConfigDestruct cell -/

theorem clearTick_value (c : ConfigDestruct) :
    (ConfigDestruct.clearTick c).value = c.value := by
  cases hc : c.tickHandle <;> simp [ConfigDestruct.clearTick, hc]

theorem clearTick_destructValue (c : ConfigDestruct) :
    (ConfigDestruct.clearTick c).destructValue = c.destructValue := by
  cases hc : c.tickHandle <;> simp [ConfigDestruct.clearTick, hc]

theorem clearTick_destructed (c : ConfigDestruct) :
    (ConfigDestruct.clearTick c).destructed = c.destructed := by
  cases hc : c.tickHandle <;> simp [ConfigDestruct.clearTick, hc]

theorem destruct_value (c : ConfigDestruct) :
    (ConfigDestruct.destruct c).value = c.destructValue := by
  simp [ConfigDestruct.destruct, clearTick_destructValue]

theorem destruct_destructed (c : ConfigDestruct) :
    (ConfigDestruct.destruct c).destructed = true := by
  simp [ConfigDestruct.destruct]

/-- C1: a `toConfig` read strictly before the destruct deadline returns the
(resolved) original value and leaves the cell unchanged; a read at or after
the deadline first performs the one-way `destruct` transition (replacing the
stored value with the destruct replacement) and returns the resolved
replacement; once destructed every subsequent read returns the replacement
with no further state change, and `destruct` discards the original value
entirely (its result does not depend on it), so no operation can restore
it. -/
theorem configDestruct_read_lifecycle (c : ConfigDestruct) (now : Int)
    (h : c.destructed = false) :
    (now < c.destructDate → ConfigDestruct.toConfig c now = (c, resolveVal c.value)) ∧
    (c.destructDate ≤ now →
      ConfigDestruct.toConfig c now = (ConfigDestruct.destruct c, resolveVal c.destructValue)) ∧
    ((ConfigDestruct.destruct c).destructed = true) ∧
    ((ConfigDestruct.destruct c).value = c.destructValue) ∧
    (∀ now2, ConfigDestruct.toConfig (ConfigDestruct.destruct c) now2 =
      (ConfigDestruct.destruct c, resolveVal c.destructValue)) ∧
    (∀ v1 v2 : JSVal,
      ConfigDestruct.destruct { c with value := v1 } = ConfigDestruct.destruct { c with value := v2 }) := by
  refine ⟨fun hlt => ?_, fun hle => ?_, destruct_destructed c, destruct_value c,
    fun now2 => ?_, fun v1 v2 => ?_⟩
  · have hc : ¬(c.destructed = false ∧ c.destructDate ≤ now) := by
      rintro ⟨-, h2⟩
      exact absurd h2 (not_le.mpr hlt)
    simp [ConfigDestruct.toConfig, hc]
  · simp [ConfigDestruct.toConfig, h, hle, destruct_value]
  · simp [ConfigDestruct.toConfig, destruct_destructed, destruct_value]
  · cases hc : c.tickHandle <;>
      simp [ConfigDestruct.destruct, ConfigDestruct.clearTick, hc]

theorem configDestruct_read_lifecycle_witness :
    ConfigDestruct.toConfig
        ({ value := .vstr "secret", destructDate := 100, destructValue := .vstr "gone" } : ConfigDestruct) 50 =
      ({ value := .vstr "secret", destructDate := 100, destructValue := .vstr "gone" }, .ok (.vstr "secret")) ∧
    ConfigDestruct.toConfig
        ({ value := .vstr "secret", destructDate := 100, destructValue := .vstr "gone" } : ConfigDestruct) 100 =
      (ConfigDestruct.destruct { value := .vstr "secret", destructDate := 100, destructValue := .vstr "gone" },
        .ok (.vstr "gone")) :=
  ⟨(configDestruct_read_lifecycle _ 50 rfl).1 (by decide),
   (configDestruct_read_lifecycle _ 100 rfl).2.1 (by decide)⟩

/-- C8: on a destructed cell, `setValue` and `setDestruct` fail by throwing
an error (fail-fast, never silently ignored), while `destruct` itself is
idempotent (a repeated call yields the same cell, hence the same read
value). -/
theorem configDestruct_rearm_rejected (c : ConfigDestruct) (v : JSVal) (now : Int)
    (t : ConfigDestruct.DestructTime) (h : c.destructed = true) :
    ConfigDestruct.setValue c v =
      .error (.error "Cannot use setValue() after value has been destructed" none) ∧
    ConfigDestruct.setDestruct c now t =
      .error (.error "Config set destruction date after value has already been destructed" none) ∧
    (∀ c2 : ConfigDestruct, ConfigDestruct.destruct (ConfigDestruct.destruct c2) = ConfigDestruct.destruct c2) := by
  refine ⟨?_, ?_, fun c2 => ?_⟩
  · simp [ConfigDestruct.setValue, h]
  · simp [ConfigDestruct.setDestruct, h]
  · cases hc : c2.tickHandle with
    | none => simp [ConfigDestruct.destruct, ConfigDestruct.clearTick, hc]
    | some hd =>
      simp [ConfigDestruct.destruct, ConfigDestruct.clearTick, hc, List.filter_filter]

theorem configDestruct_rearm_rejected_witness :
    ConfigDestruct.setValue
        ({ value := .vstr "gone", destructed := true, destructValue := .vstr "gone" } : ConfigDestruct)
        (.vstr "new") =
      .error (.error "Cannot use setValue() after value has been destructed" none) ∧
    ConfigDestruct.setDestruct
        ({ value := .vstr "gone", destructed := true, destructValue := .vstr "gone" } : ConfigDestruct)
        0 (.dur 1000) =
      .error (.error "Config set destruction date after value has already been destructed" none) :=
  ⟨(configDestruct_rearm_rejected _ (.vstr "new") 0 (.dur 1000) rfl).1,
   (configDestruct_rearm_rejected _ (.vstr "new") 0 (.dur 1000) rfl).2.1⟩

/-- The cell produced by `new ConfigDestruct('secret', {})` at t = 0:
deadline 60000 ms (the `'1m'` default), tick interval 500, the armed timer
(id 0) stored in `#tickHandle` and pending. -/
def orphanDemo0 : ConfigDestruct :=
  { value := .vstr "secret", destructDate := 60000,
    destructValue := ConfigDestruct.defaultDestructValue,
    tickHandle := some 0, pending := [0], nextId := 1 }

/-- The same cell after its armed timer fires at t = 500: `timerTick`
reschedules a new timer (id 1) but — per configDestruct.js line 132 —
discards the `setTimeout` handle, so `#tickHandle` still holds the stale
id 0. -/
def orphanDemo1 : ConfigDestruct := ConfigDestruct.tickFire orphanDemo0 0 500

/-- The same cell after a manual `destruct()` at t = 700: `clearTimeout`
acts on the stale handle (id 0, already fired), leaving the rescheduled
timer (id 1) pending on the destroyed cell. -/
def orphanDemo2 : ConfigDestruct := ConfigDestruct.destruct orphanDemo1

/-- C9: refuted on the code as written.  The reschedule in `timerTick`
(configDestruct.js line 132) discards the `setTimeout` result instead of
assigning `this.#tickHandle` (contrast `timerRestart`, line 153, which
does), so once the armed timer has fired, the stored handle is stale and
`destruct()`'s `clearTimeout` cannot cancel the rescheduled tick.
Concretely: the constructor arms timer 0; timer 0 fires at t = 500 and
reschedules timer 1 untracked; a manual `destruct()` at t = 700 (and
likewise a destructing read at the deadline) leaves timer 1 pending, and
timer 1 then fires on the destroyed cell — contradicting the claim that
destruction cancels any pending timer and that no further tick ever
fires.  The claim matches the spec and the source's own comments
(`destruct()`: "Clear any existing timers"), so the code is the slip. -/
theorem configDestruct_orphan_tick_after_destruct :
    ConfigDestruct.create 0 (.vstr "secret") (.obj {}) = .ok orphanDemo0 ∧
    orphanDemo1.destructed = false ∧
    orphanDemo1.pending = [1] ∧
    orphanDemo1.tickHandle = some 0 ∧
    orphanDemo2.destructed = true ∧
    orphanDemo2.pending = [1] ∧
    ConfigDestruct.tickFire orphanDemo2 1 1000 = { orphanDemo2 with pending := [] } ∧
    ((ConfigDestruct.toConfig orphanDemo1 60000).1.destructed = true ∧
      (ConfigDestruct.toConfig orphanDemo1 60000).1.pending = [1]) := by
  refine ⟨rfl, rfl, rfl, rfl, rfl, rfl, rfl, rfl, rfl⟩

/- ## Theorems: Schema engine -/

theorem mergeTE_defaultRaw (te : TypeEntry) (fs : FieldSchema) :
    (Schema.mergeTE te fs).defaultRaw = fs.defaultRaw := rfl

theorem mergeTE_default (te : TypeEntry) (fs : FieldSchema) :
    (Schema.mergeTE te fs).default = fs.default := rfl

theorem mergeTE_required (te : TypeEntry) (fs : FieldSchema) :
    (Schema.mergeTE te fs).required = fs.required := rfl

theorem mergeTE_destruct (te : TypeEntry) (fs : FieldSchema) :
    (Schema.mergeTE te fs).destruct = fs.destruct := rfl

theorem applyField_unfold (S : TypesMap) (now : Int) (val : JSVal) (raw : FieldSchema)
    (te : TypeEntry) (hty : lookupType S raw.type = some te) :
    Schema.applyField S now val raw = Schema.applyFieldBody S now (Schema.mergeTE te raw) val := by
  simp [Schema.applyField, Schema.inheritType, hty]

/-- C4: a field descriptor with `defaultRaw` defined makes `applyField`
return it verbatim, for every raw input value and regardless of the field's
cast/validate/required settings (none of which occur in the result). -/
theorem applyField_defaultRaw_verbatim (S : TypesMap) (now : Int) (val : JSVal)
    (raw : FieldSchema) (te : TypeEntry)
    (hty : lookupType S raw.type = some te)
    (hdr : raw.defaultRaw.isUndefined = false) :
    Schema.applyField S now val raw = .ok raw.defaultRaw := by
  rw [applyField_unfold S now val raw te hty]
  simp [Schema.applyFieldBody, mergeTE_defaultRaw, hdr]

/-- A small concrete registry used to instantiate the quantified theorems:
`any` has no functions, `upper` has an inline cast. -/
def demoUpperEntry : TypeEntry :=
  { cast := some (.fn (fun v _ =>
      match v with
      | .vstr s => .ok (.vstr s.toUpper)
      | _ => .ok v)) }

def demoTypes : TypesMap := [("any", {}), ("upper", demoUpperEntry)]

theorem applyField_defaultRaw_verbatim_witness :
    Schema.applyField demoTypes 0 (.vstr "ignored")
      { type := "upper", defaultRaw := .vstr "hello" } = .ok (.vstr "hello") :=
  applyField_defaultRaw_verbatim demoTypes 0 (.vstr "ignored")
    { type := "upper", defaultRaw := .vstr "hello" } demoUpperEntry rfl rfl

/-- C2: with no `defaultRaw`, a present `default` and an unset/blank raw
value, the default is evaluated (calling it with the merged field schema if
it is a function); a string result is fed into the pipeline exactly like a
raw input (the whole `applyField` call coincides with one on that string),
and any non-string result is returned immediately, skipping cast, validate
and both required checks. -/
theorem applyField_default_evaluation (S : TypesMap) (now : Int) (val : JSVal)
    (raw : FieldSchema) (te : TypeEntry)
    (hty : lookupType S raw.type = some te)
    (hdr : raw.defaultRaw.isUndefined = true)
    (hdf : raw.default.isUndefined = false)
    (hval : val.isEmptyish = true) :
    (∀ f, raw.default = .fn f →
      Schema.evalDefault (Schema.mergeTE te raw) =
        f (Schema.schemaProps (Schema.mergeTE te raw))) ∧
    (∀ s, Schema.evalDefault (Schema.mergeTE te raw) = .vstr s →
      Schema.applyField S now val raw = Schema.applyField S now (.vstr s) raw) ∧
    (∀ dv, Schema.evalDefault (Schema.mergeTE te raw) = dv → dv.isStr = false →
      Schema.applyField S now val raw = .ok dv) := by
  have hdr' : (Schema.mergeTE te raw).defaultRaw.isUndefined = true := by
    rw [mergeTE_defaultRaw]; exact hdr
  have hdf' : (Schema.mergeTE te raw).default.isUndefined = false := by
    rw [mergeTE_default]; exact hdf
  refine ⟨?_, ?_, ?_⟩
  · intro f hf
    simp [Schema.evalDefault, mergeTE_default, hf]
  · intro s hs
    rw [applyField_unfold S now val raw te hty, applyField_unfold S now (.vstr s) raw te hty]
    have hL : Schema.defaultStep (Schema.mergeTE te raw) val = .inr (.vstr s) := by
      simp [Schema.defaultStep, hdf', hval, hs]
    have hR : Schema.defaultStep (Schema.mergeTE te raw) (.vstr s) = .inr (.vstr s) := by
      by_cases hc : s = ""
      · subst hc
        simp [Schema.defaultStep, hdf', hs, JSVal.isEmptyish]
      · simp [Schema.defaultStep, JSVal.isEmptyish, hc]
    simp [Schema.applyFieldBody, hdr', hL, hR]
  · intro dv hdv hstr
    rw [applyField_unfold S now val raw te hty]
    have hL : Schema.defaultStep (Schema.mergeTE te raw) val = .inl dv := by
      cases dv with
      | vstr s => simp [JSVal.isStr] at hstr
      | undefined => simp [Schema.defaultStep, hdf', hval, hdv]
      | vnull => simp [Schema.defaultStep, hdf', hval, hdv]
      | vnum n => simp [Schema.defaultStep, hdf', hval, hdv]
      | vbool b => simp [Schema.defaultStep, hdf', hval, hdv]
      | vobj kvs => simp [Schema.defaultStep, hdf', hval, hdv]
      | vfun r => simp [Schema.defaultStep, hdf', hval, hdv]
      | vcell c => simp [Schema.defaultStep, hdf', hval, hdv]
    simp [Schema.applyFieldBody, hdr', hL]

theorem applyField_default_evaluation_witness :
    Schema.applyField demoTypes 0 .undefined
        { type := "upper", required := false, default := .val (.vstr "fallback") } =
      Schema.applyField demoTypes 0 (.vstr "fallback")
        { type := "upper", required := false, default := .val (.vstr "fallback") } ∧
    Schema.applyField demoTypes 0 .undefined
        { type := "any", required := true, default := .val (.vnum 42) } = .ok (.vnum 42) :=
  ⟨(applyField_default_evaluation demoTypes 0 .undefined
      { type := "upper", required := false, default := .val (.vstr "fallback") }
      demoUpperEntry rfl rfl rfl rfl).2.1 "fallback" rfl,
   (applyField_default_evaluation demoTypes 0 .undefined
      { type := "any", required := true, default := .val (.vnum 42) }
      {} rfl rfl rfl rfl).2.2 (.vnum 42) rfl rfl⟩

/-- C5: with `required` false and no `defaultRaw`, when the value after the
default step is still `undefined` or the empty string (or the default step
itself produced `undefined`), `applyField` returns `undefined` immediately;
the result is independent of the field's cast and validate entries, which
are therefore never invoked (the witness uses an always-failing
validator). -/
theorem applyField_optional_empty (S : TypesMap) (now : Int)
    (raw : FieldSchema) (te : TypeEntry)
    (hty : lookupType S raw.type = some te)
    (hdr : raw.defaultRaw.isUndefined = true)
    (hreq : raw.required = false) :
    (∀ val v1, Schema.defaultStep (Schema.mergeTE te raw) val = .inr v1 →
      v1.isEmptyish = true → Schema.applyField S now val raw = .ok .undefined) ∧
    (∀ val, Schema.defaultStep (Schema.mergeTE te raw) val = .inl .undefined →
      Schema.applyField S now val raw = .ok .undefined) := by
  have hdr' : (Schema.mergeTE te raw).defaultRaw.isUndefined = true := by
    rw [mergeTE_defaultRaw]; exact hdr
  have hreq' : (Schema.mergeTE te raw).required = false := by
    rw [mergeTE_required]; exact hreq
  constructor
  · intro val v1 hds hv1
    rw [applyField_unfold S now val raw te hty]
    simp [Schema.applyFieldBody, hdr', hds, hreq', hv1]
  · intro val hds
    rw [applyField_unfold S now val raw te hty]
    simp [Schema.applyFieldBody, hdr', hds]

theorem applyField_optional_empty_witness :
    Schema.applyField demoTypes 0 .undefined
        { type := "any", required := false,
          validate := some (.fn (fun _ _ => .error (.raw "validator must not run"))) } =
      .ok .undefined ∧
    Schema.applyField demoTypes 0 (.vstr "")
        { type := "any", required := false,
          cast := some (.fn (fun _ _ => .error (.raw "cast must not run"))) } =
      .ok .undefined :=
  ⟨(applyField_optional_empty demoTypes 0
      { type := "any", required := false,
        validate := some (.fn (fun _ _ => .error (.raw "validator must not run"))) }
      {} rfl rfl rfl).1 .undefined .undefined rfl rfl,
   (applyField_optional_empty demoTypes 0
      { type := "any", required := false,
        cast := some (.fn (fun _ _ => .error (.raw "cast must not run"))) }
      {} rfl rfl rfl).1 (.vstr "") (.vstr "") rfl rfl⟩

/-- C6: when the (merged) field schema has a `validate` entry,
`validateStep` invokes the resolved validator with
`(value, effective field schema)` — for an inline function the effective
schema is the merged field schema itself, for a pointer it additionally has
the pointed-to entry's options underneath; a thrown error or a
defined-and-falsy return is wrapped as a `Failed validation` error, while
an `undefined` return passes the value through.  The step runs after cast
and the post-cast required check: a cast error or a `Value required` error
is the result of `applyField` no matter what the validator does, and when
both pass `applyField` continues with `validateStep` on the post-cast
value. -/
theorem applyField_validate_invocation (S : TypesMap) (now : Int) (raw : FieldSchema)
    (te : TypeEntry)
    (hty : lookupType S raw.type = some te) :
    (∀ (f : JSVal → TypeProps → Except JsErr JSVal) v,
      (Schema.mergeTE te raw).validate = some (.fn f) →
      Schema.validateStep S (Schema.mergeTE te raw) v =
      match f v (Schema.schemaProps (Schema.mergeTE te raw)) with
      | .error e => .error (.error ("Failed validation: " ++ e.toString) (some e))
      | .ok r =>
        if r.isUndefined = false ∧ r.truthy = false then
          .error (.error ("Failed validation: " ++ JsErr.toString (.error Schema.uncategorisedMsg none))
            (some (.error Schema.uncategorisedMsg none)))
        else .ok v) ∧
    (∀ vname te2 (g : JSVal → TypeProps → Except JsErr JSVal) v,
      (Schema.mergeTE te raw).validate = some (.ptr vname) → (vname == "") = false →
      lookupType S vname = some te2 → te2.validate = some (.fn g) →
      Schema.validateStep S (Schema.mergeTE te raw) v =
      match g v (Schema.effProps S (Schema.mergeTE te raw).validate (Schema.mergeTE te raw)) with
      | .error e => .error (.error ("Failed validation: " ++ e.toString) (some e))
      | .ok r =>
        if r.isUndefined = false ∧ r.truthy = false then
          .error (.error ("Failed validation: " ++ JsErr.toString (.error Schema.uncategorisedMsg none))
            (some (.error Schema.uncategorisedMsg none)))
        else .ok v) ∧
    (∀ s e, (s == "") = false → raw.defaultRaw.isUndefined = true →
      Schema.castStep S (Schema.mergeTE te raw) (.vstr s) = .error e →
      Schema.applyField S now (.vstr s) raw = .error e) ∧
    (∀ s v2 e, (s == "") = false → raw.defaultRaw.isUndefined = true →
      Schema.castStep S (Schema.mergeTE te raw) (.vstr s) = .ok v2 →
      Schema.requiredStep (Schema.mergeTE te raw) v2 = .error e →
      Schema.applyField S now (.vstr s) raw = .error e) ∧
    (∀ s v2, (s == "") = false → raw.defaultRaw.isUndefined = true → raw.destruct = none →
      Schema.castStep S (Schema.mergeTE te raw) (.vstr s) = .ok v2 →
      Schema.requiredStep (Schema.mergeTE te raw) v2 = .ok v2 →
      Schema.applyField S now (.vstr s) raw =
        Schema.validateStep S (Schema.mergeTE te raw) v2) := by
  have hdr' : ∀ h : raw.defaultRaw.isUndefined = true,
      (Schema.mergeTE te raw).defaultRaw.isUndefined = true := fun h => by
    rw [mergeTE_defaultRaw]; exact h
  refine ⟨?_, ?_, ?_, ?_, ?_⟩
  · intro f v hv
    simp [Schema.validateStep, hv, FnRef.truthy, Schema.effProps, Schema.runValidate]
  · intro vname te2 g v hv hn hlk hg
    simp [Schema.validateStep, hv, FnRef.truthy, hn, hlk, hg, Schema.runValidate]
  · intro s e hs0 hdr hcast
    rw [applyField_unfold S now (.vstr s) raw te hty]
    have hds : Schema.defaultStep (Schema.mergeTE te raw) (.vstr s) = .inr (.vstr s) := by
      simp [Schema.defaultStep, JSVal.isEmptyish, hs0]
    simp [Schema.applyFieldBody, hdr' hdr, hds, JSVal.isEmptyish, hs0, hcast]
  · intro s v2 e hs0 hdr hcast hreq
    rw [applyField_unfold S now (.vstr s) raw te hty]
    have hds : Schema.defaultStep (Schema.mergeTE te raw) (.vstr s) = .inr (.vstr s) := by
      simp [Schema.defaultStep, JSVal.isEmptyish, hs0]
    simp [Schema.applyFieldBody, hdr' hdr, hds, JSVal.isEmptyish, hs0, hcast, hreq]
  · intro s v2 hs0 hdr hdes hcast hreq
    rw [applyField_unfold S now (.vstr s) raw te hty]
    have hds : Schema.defaultStep (Schema.mergeTE te raw) (.vstr s) = .inr (.vstr s) := by
      simp [Schema.defaultStep, JSVal.isEmptyish, hs0]
    have hdes' : (Schema.mergeTE te raw).destruct = none := by
      rw [mergeTE_destruct]; exact hdes
    cases hvs : Schema.validateStep S (Schema.mergeTE te raw) v2 with
    | error e =>
      simp [Schema.applyFieldBody, hdr' hdr, hds, JSVal.isEmptyish, hs0, hcast, hreq, hvs]
    | ok v4 =>
      simp [Schema.applyFieldBody, hdr' hdr, hds, JSVal.isEmptyish, hs0, hcast, hreq, hvs,
        Schema.destructStep, hdes']

/-- A concrete validator for the C6 witness: passes (returns `undefined`)
on `"good"`, throws on `"throw"`, returns `false` otherwise. -/
def demoValidator : JSVal → TypeProps → Except JsErr JSVal := fun v _ =>
  match v with
  | .vstr "good" => .ok .undefined
  | .vstr "throw" => .error (.raw "thrown")
  | _ => .ok (.vbool false)

theorem applyField_validate_invocation_witness :
    Schema.applyField demoTypes 0 (.vstr "good")
        { type := "any", validate := some (.fn demoValidator) } =
      Schema.validateStep demoTypes
        (Schema.mergeTE {} { type := "any", validate := some (.fn demoValidator) })
        (.vstr "good") ∧
    Schema.validateStep demoTypes
        (Schema.mergeTE {} { type := "any", validate := some (.fn demoValidator) })
        (.vstr "oops") =
      .error (.error ("Failed validation: " ++ JsErr.toString (.error Schema.uncategorisedMsg none))
        (some (.error Schema.uncategorisedMsg none))) ∧
    Schema.validateStep demoTypes
        (Schema.mergeTE {} { type := "any", validate := some (.fn demoValidator) })
        (.vstr "throw") =
      .error (.error ("Failed validation: thrown") (some (.raw "thrown"))) ∧
    Schema.validateStep demoTypes
        (Schema.mergeTE {} { type := "any", validate := some (.fn demoValidator) })
        (.vstr "good") =
      .ok (.vstr "good") := by
  have h := applyField_validate_invocation demoTypes 0
    { type := "any", validate := some (.fn demoValidator) } {} rfl
  refine ⟨h.2.2.2.2 "good" (.vstr "good") rfl rfl rfl rfl rfl, ?_, ?_, ?_⟩
  · rw [h.1 demoValidator (.vstr "oops") rfl]
    rfl
  · rw [h.1 demoValidator (.vstr "throw") rfl]
    rfl
  · rw [h.1 demoValidator (.vstr "good") rfl]
    rfl

/-- C7: a string-valued `cast` or `validate` is resolved as a pointer to
the same-named function of the named registry type in exactly one hop:
`applyField` throws when the named type does not exist, throws when the
named type's own cast/validate is itself a string pointer (chains are
rejected, not followed), and otherwise uses the pointed-to function
directly (note the source reuses the `Cast pointer` wording in the
validate ptr-to-ptr error). -/
theorem applyField_pointer_one_hop (S : TypesMap) (now : Int) (raw : FieldSchema)
    (te : TypeEntry) (s : String)
    (hty : lookupType S raw.type = some te)
    (hdr : raw.defaultRaw.isUndefined = true)
    (hs0 : (s == "") = false) :
    (∀ name, (Schema.mergeTE te raw).cast = some (.ptr name) → (name == "") = false →
      lookupType S name = none →
      Schema.applyField S now (.vstr s) raw =
        .error (.error ("Cast pointer to \"" ++ name ++ "\" does not exist") none)) ∧
    (∀ name te2 q, (Schema.mergeTE te raw).cast = some (.ptr name) → (name == "") = false →
      lookupType S name = some te2 → te2.cast = some (.ptr q) →
      Schema.applyField S now (.vstr s) raw =
        .error (.error ("Cast pointer to \"" ++ name ++ "\" is itself a string pointer - point to the original instead!") none)) ∧
    (∀ name te2 g, (Schema.mergeTE te raw).cast = some (.ptr name) → (name == "") = false →
      lookupType S name = some te2 → te2.cast = some (.fn g) →
      Schema.castStep S (Schema.mergeTE te raw) (.vstr s) =
        Schema.runCast g (.vstr s)
          (Schema.effProps S (Schema.mergeTE te raw).cast (Schema.mergeTE te raw))) ∧
    (∀ vname, (Schema.mergeTE te raw).cast = none →
      (Schema.mergeTE te raw).validate = some (.ptr vname) → (vname == "") = false →
      lookupType S vname = none →
      Schema.applyField S now (.vstr s) raw =
        .error (.error ("Validate pointer to \"" ++ vname ++ "\" does not exist") none)) ∧
    (∀ vname te2 q, (Schema.mergeTE te raw).cast = none →
      (Schema.mergeTE te raw).validate = some (.ptr vname) → (vname == "") = false →
      lookupType S vname = some te2 → te2.validate = some (.ptr q) →
      Schema.applyField S now (.vstr s) raw =
        .error (.error ("Cast pointer to \"" ++ vname ++ "\" is itself a string pointer - point to the original instead!") none)) ∧
    (∀ vname te2 g v, (Schema.mergeTE te raw).validate = some (.ptr vname) → (vname == "") = false →
      lookupType S vname = some te2 → te2.validate = some (.fn g) →
      Schema.validateStep S (Schema.mergeTE te raw) v =
        Schema.runValidate g v
          (Schema.effProps S (Schema.mergeTE te raw).validate (Schema.mergeTE te raw))) := by
  have hdr' : (Schema.mergeTE te raw).defaultRaw.isUndefined = true := by
    rw [mergeTE_defaultRaw]; exact hdr
  have hds : Schema.defaultStep (Schema.mergeTE te raw) (.vstr s) = .inr (.vstr s) := by
    simp [Schema.defaultStep, JSVal.isEmptyish, hs0]
  refine ⟨?_, ?_, ?_, ?_, ?_, ?_⟩
  · intro name hc hn hlk
    rw [applyField_unfold S now (.vstr s) raw te hty]
    have hcs : Schema.castStep S (Schema.mergeTE te raw) (.vstr s) =
        .error (.error ("Cast pointer to \"" ++ name ++ "\" does not exist") none) := by
      simp [Schema.castStep, hc, FnRef.truthy, hn, JSVal.isStr, hlk]
    simp [Schema.applyFieldBody, hdr', hds, JSVal.isEmptyish, hs0, hcs]
  · intro name te2 q hc hn hlk hq
    rw [applyField_unfold S now (.vstr s) raw te hty]
    have hcs : Schema.castStep S (Schema.mergeTE te raw) (.vstr s) =
        .error (.error ("Cast pointer to \"" ++ name ++ "\" is itself a string pointer - point to the original instead!") none) := by
      simp [Schema.castStep, hc, FnRef.truthy, hn, JSVal.isStr, hlk, hq]
    simp [Schema.applyFieldBody, hdr', hds, JSVal.isEmptyish, hs0, hcs]
  · intro name te2 g hc hn hlk hg
    simp [Schema.castStep, hc, FnRef.truthy, hn, JSVal.isStr, hlk, hg]
  · intro vname hc hv hn hlk
    rw [applyField_unfold S now (.vstr s) raw te hty]
    have hcs : Schema.castStep S (Schema.mergeTE te raw) (.vstr s) = .ok (.vstr s) := by
      simp [Schema.castStep, hc, FnRef.truthy]
    have hrq : Schema.requiredStep (Schema.mergeTE te raw) (.vstr s) = .ok (.vstr s) := by
      simp [Schema.requiredStep, JSVal.isUndefined]
    have hvs : Schema.validateStep S (Schema.mergeTE te raw) (.vstr s) =
        .error (.error ("Validate pointer to \"" ++ vname ++ "\" does not exist") none) := by
      simp [Schema.validateStep, hv, FnRef.truthy, hn, hlk]
    simp [Schema.applyFieldBody, hdr', hds, JSVal.isEmptyish, hs0, hcs, hrq, hvs]
  · intro vname te2 q hc hv hn hlk hq
    rw [applyField_unfold S now (.vstr s) raw te hty]
    have hcs : Schema.castStep S (Schema.mergeTE te raw) (.vstr s) = .ok (.vstr s) := by
      simp [Schema.castStep, hc, FnRef.truthy]
    have hrq : Schema.requiredStep (Schema.mergeTE te raw) (.vstr s) = .ok (.vstr s) := by
      simp [Schema.requiredStep, JSVal.isUndefined]
    have hvs : Schema.validateStep S (Schema.mergeTE te raw) (.vstr s) =
        .error (.error ("Cast pointer to \"" ++ vname ++ "\" is itself a string pointer - point to the original instead!") none) := by
      simp [Schema.validateStep, hv, FnRef.truthy, hn, hlk, hq]
    simp [Schema.applyFieldBody, hdr', hds, JSVal.isEmptyish, hs0, hcs, hrq, hvs]
  · intro vname te2 g v hv hn hlk hg
    simp [Schema.validateStep, hv, FnRef.truthy, hn, hlk, hg]

/-- Identity cast used by the C7 witness registry. -/
def demoIdCast : JSVal → TypeProps → Except JsErr JSVal := fun v _ => .ok v

/-- Always-passing validator used by the C7 witness registry. -/
def demoPassValidate : JSVal → TypeProps → Except JsErr JSVal := fun _ _ => .ok .undefined

/-- Registry for the C7 witness: `good` has inline functions, `alias` has
pointer entries pointing at `good` (a pointer chain when pointed at). -/
def demoPtrTypes : TypesMap :=
  [("any", {}),
   ("good", { cast := some (.fn demoIdCast), validate := some (.fn demoPassValidate) }),
   ("alias", { cast := some (.ptr "good"), validate := some (.ptr "good") })]

theorem applyField_pointer_one_hop_witness :
    Schema.applyField demoPtrTypes 0 (.vstr "x")
        { type := "any", cast := some (.ptr "nope") } =
      .error (.error ("Cast pointer to \"nope\" does not exist") none) ∧
    Schema.applyField demoPtrTypes 0 (.vstr "x")
        { type := "any", cast := some (.ptr "alias") } =
      .error (.error ("Cast pointer to \"alias\" is itself a string pointer - point to the original instead!") none) ∧
    Schema.castStep demoPtrTypes
        (Schema.mergeTE {} { type := "any", cast := some (.ptr "good") }) (.vstr "x") =
      Schema.runCast demoIdCast (.vstr "x")
        (Schema.effProps demoPtrTypes
          (Schema.mergeTE {} { type := "any", cast := some (.ptr "good") }).cast
          (Schema.mergeTE {} { type := "any", cast := some (.ptr "good") })) ∧
    Schema.applyField demoPtrTypes 0 (.vstr "x")
        { type := "any", validate := some (.ptr "nope") } =
      .error (.error ("Validate pointer to \"nope\" does not exist") none) ∧
    Schema.applyField demoPtrTypes 0 (.vstr "x")
        { type := "any", validate := some (.ptr "alias") } =
      .error (.error ("Cast pointer to \"alias\" is itself a string pointer - point to the original instead!") none) ∧
    Schema.validateStep demoPtrTypes
        (Schema.mergeTE {} { type := "any", validate := some (.ptr "good") }) (.vstr "x") =
      Schema.runValidate demoPassValidate (.vstr "x")
        (Schema.effProps demoPtrTypes
          (Schema.mergeTE {} { type := "any", validate := some (.ptr "good") }).validate
          (Schema.mergeTE {} { type := "any", validate := some (.ptr "good") })) :=
  ⟨(applyField_pointer_one_hop demoPtrTypes 0 { type := "any", cast := some (.ptr "nope") }
      {} "x" rfl rfl rfl).1 "nope" rfl rfl rfl,
   (applyField_pointer_one_hop demoPtrTypes 0 { type := "any", cast := some (.ptr "alias") }
      {} "x" rfl rfl rfl).2.1 "alias" { cast := some (.ptr "good"), validate := some (.ptr "good") }
      "good" rfl rfl rfl rfl,
   (applyField_pointer_one_hop demoPtrTypes 0 { type := "any", cast := some (.ptr "good") }
      {} "x" rfl rfl rfl).2.2.1 "good"
      { cast := some (.fn demoIdCast), validate := some (.fn demoPassValidate) }
      demoIdCast rfl rfl rfl rfl,
   (applyField_pointer_one_hop demoPtrTypes 0 { type := "any", validate := some (.ptr "nope") }
      {} "x" rfl rfl rfl).2.2.2.1 "nope" rfl rfl rfl rfl,
   (applyField_pointer_one_hop demoPtrTypes 0 { type := "any", validate := some (.ptr "alias") }
      {} "x" rfl rfl rfl).2.2.2.2.1 "alias"
      { cast := some (.ptr "good"), validate := some (.ptr "good") } "good" rfl rfl rfl rfl rfl,
   (applyField_pointer_one_hop demoPtrTypes 0 { type := "any", validate := some (.ptr "good") }
      {} "x" rfl rfl rfl).2.2.2.2.2 "good"
      { cast := some (.fn demoIdCast), validate := some (.fn demoPassValidate) }
      demoPassValidate (.vstr "x") rfl rfl rfl rfl⟩

theorem applyFields_fail_fast (S : TypesMap) (now : Int) (config : Schema.ObjMap) :
    ∀ (pre : List (String × FieldSchema)) (name : String) (raw : FieldSchema)
      (post : List (String × FieldSchema)) (e : JsErr),
      (∀ pr ∈ pre, ∃ v, Schema.applyField S now (Schema.lookupObj config pr.1) pr.2 = .ok v) →
      Schema.applyField S now (Schema.lookupObj config name) raw = .error e →
      Schema.applyFields S now config (pre ++ (name, raw) :: post) =
        .error (.error ("Env \x27" ++ name ++ "\x27: " ++ stripErrorHead e.toString) (some e))
  | [], name, raw, post, e, _, hfail => by
    simp [Schema.applyFields, hfail]
  | (p, r) :: tl, name, raw, post, e, hpre, hfail => by
    obtain ⟨v, hv⟩ := hpre (p, r) (by simp)
    have ih := applyFields_fail_fast S now config tl name raw post e
      (fun pr hpr => hpre pr (List.mem_cons_of_mem _ hpr)) hfail
    simp [Schema.applyFields, hv, ih]

/-- C3: `apply` processes the schema's fields sequentially; when a field's
`applyField` throws, `apply` re-raises a single error whose message
prefixes the field name in the form `Env '<name>': <message>` (with a
leading `Error: ` stripped from the inner message) and whose cause is the
original error; the first failing field aborts the whole call — the fields
after it are never consulted and no partial config object is returned
(the result is the error, not a map). -/
theorem apply_error_wrapping (S : TypesMap) (now : Int) (config : Schema.ObjMap)
    (reject : Bool) (pre : List (String × FieldSchema)) (name : String)
    (raw : FieldSchema) (post : List (String × FieldSchema)) (e : JsErr)
    (hpre : ∀ pr ∈ pre, ∃ v, Schema.applyField S now (Schema.lookupObj config pr.1) pr.2 = .ok v)
    (hfail : Schema.applyField S now (Schema.lookupObj config name) raw = .error e) :
    Schema.apply S now (pre ++ (name, raw) :: post) reject config =
      .error (.error ("Env \x27" ++ name ++ "\x27: " ++ stripErrorHead e.toString) (some e)) := by
  have key := applyFields_fail_fast S now config pre name raw post e hpre hfail
  simp [Schema.apply, key]

theorem apply_error_wrapping_witness :
    Schema.apply demoTypes 0
        [("A", { type := "any", required := false }),
         ("B", { type := "any", required := true }),
         ("C", { type := "any", required := false })]
        true [("A", .vstr "hello")] =
      .error (.error "Env \x27B\x27: Value required" (some (.error "Value required" none))) := by
  have h := apply_error_wrapping demoTypes 0 [("A", .vstr "hello")] true
    [("A", { type := "any", required := false })] "B" { type := "any", required := true }
    [("C", { type := "any", required := false })] (.error "Value required" none)
    (by
      rintro pr hpr
      simp only [List.mem_singleton] at hpr
      subst hpr
      exact ⟨.vstr "hello", rfl⟩)
    rfl
  have hs : "Env \x27" ++ "B" ++ "\x27: " ++
      stripErrorHead (JsErr.toString (.error "Value required" none)) =
      "Env \x27B\x27: Value required" := by decide
  rw [hs] at h
  exact h

/-- The field `{type: 'any', default: null}` from the claim: stored
successfully by `apply`, unreadable through the Proxy. -/
def nullDefaultField : FieldSchema := { type := "any", default := .val .vnull }

/-- C10: the Proxy `get` handler evaluates `'toConfig' in target` whenever
the stored value has `typeof == 'object'`, which throws a TypeError on
`null`; so every read of a field whose stored value is `null` throws
instead of returning `null`, while the value itself is stored without
error — e.g. a field declared `{type: 'any', default: null}`. -/
theorem apply_null_read_typeerror :
    (∀ (now : Int) (obj : Schema.ObjMap) (prop : String),
      Schema.lookupObj obj prop = .vnull →
      (Schema.proxyGet now obj prop).2 =
        .error (.typeError "Cannot use \x27in\x27 operator to search for \x27toConfig\x27 in null")) ∧
    Schema.apply demoTypes 0 [("X", nullDefaultField)] true [] = .ok [("X", .vnull)] ∧
    (Schema.proxyGet 0 [("X", .vnull)] "X").2 =
      .error (.typeError "Cannot use \x27in\x27 operator to search for \x27toConfig\x27 in null") := by
  refine ⟨?_, rfl, rfl⟩
  intro now obj prop h
  simp [Schema.proxyGet, h, JSVal.typeofObject]

theorem apply_null_read_typeerror_witness :
    (Schema.proxyGet 7 [("X", .vnull)] "X").2 =
      .error (.typeError "Cannot use \x27in\x27 operator to search for \x27toConfig\x27 in null") :=
  apply_null_read_typeerror.1 7 [("X", .vnull)] "X" rfl
